import Mathlib

/- Shallow embedding of src/work.py, a screen-automation script that locates
UI elements by template matching against live screen captures and drives a
scripted Composer workflow with retries and timeouts.  External effects
(mss screen grabs, cv2 template matching, pyautogui input injection,
window focusing) are represented by oracle inputs, and the injected input
events are recorded in an explicit action trace. -/

namespace AutoComposer

/-- Python exceptions raised by the embedded fragments. -/
inductive PyErr where
  | valueError (msg : String)
  | indexError
  deriving DecidableEq

/-- One enumerated display, as reported by mss. -/
structure Monitor where
  mid : ℕ
  deriving DecidableEq

/-- A captured bitmap, tagged with the monitor it came from. -/
structure ScreenImage where
  source : Monitor
  deriving DecidableEq

/-- Python list indexing semantics: nonnegative indices count from the front,
negative indices from the back, and anything outside the valid range raises
IndexError. -/
def py_get (l : List Monitor) (i : Int) : Except PyErr Monitor :=
  if 0 ≤ i then
    match l[i.toNat]? with
    | some a => .ok a
    | none => .error .indexError
  else if 0 ≤ (l.length : Int) + i then
    match l[((l.length : Int) + i).toNat]? with
    | some a => .ok a
    | none => .error .indexError
  else .error .indexError

/-- Embeds capture_screen (src/work.py lines 22-35): raise ValueError when
monitor_id is at least the number of enumerated monitors, otherwise grab
monitors[monitor_id] and return its image. -/
def capture_screen (monitors : List Monitor) (monitor_id : Int) : Except PyErr ScreenImage :=
  if (monitors.length : Int) ≤ monitor_id then
    .error (.valueError "monitor does not exist")
  else
    match py_get monitors monitor_id with
    | .ok mon => .ok ⟨mon⟩
    | .error e => .error e

/-- Whether a capture result is the CaptureError of the design, i.e. the
ValueError raised by the explicit monitor-range check. -/
def isCaptureError (r : Except PyErr ScreenImage) : Bool :=
  match r with
  | .error (.valueError _) => true
  | _ => false

/-- Template image dimensions as produced by cv2.imread; the fields h and w
mirror template.shape[:2]. -/
structure TemplateImg where
  h : ℕ
  w : ℕ
  deriving DecidableEq

/-- Best-match result of cv2.matchTemplate followed by cv2.minMaxLoc: the
best normalized cross-correlation score and its top-left offset. -/
structure MatchOutcome where
  max_val : ℚ
  max_loc : ℕ × ℕ

/-- Oracle inputs to one call of the module-level check_element_exist: the
result of the screen capture, the loaded template (none when cv2.imread
fails), and the template-matching outcome on the captured image. -/
structure LocateEnv where
  capture : Except PyErr ScreenImage
  template : Option TemplateImg
  matched : MatchOutcome

/-- Default value of the confidence parameter of check_element_exist. -/
def default_confidence : ℚ := 4 / 5

/-- Embeds the module-level check_element_exist (src/work.py lines 37-75):
capture the screen, load the template (ValueError when unreadable), match,
then threshold the best score against the confidence; on success return the
best-match offset plus half the template width and height (integer
division), otherwise found = false with no coordinate. -/
def check_element_exist (env : LocateEnv) (confidence : ℚ) :
    Except PyErr (Bool × Option (ℕ × ℕ)) :=
  match env.capture with
  | .error e => .error e
  | .ok _ =>
    match env.template with
    | none => .error (.valueError "cannot read template image")
    | some tpl =>
      if env.matched.max_val ≥ confidence then
        .ok (true, some (env.matched.max_loc.1 + tpl.w / 2, env.matched.max_loc.2 + tpl.h / 2))
      else
        .ok (false, none)

/-- Whether a locate call reports the element as found. -/
def locate_found (env : LocateEnv) (confidence : ℚ) : Bool :=
  match check_element_exist env confidence with
  | .ok (b, _) => b
  | .error _ => false

/-- Injected input and observation events, recorded as a trace. -/
inductive Action where
  | openProject
  | focus (ok : Bool)
  | hotkey (name : String)
  | checkElement (elem : String) (found : Bool)
  | raiseCaught
  | clickAt (pos : ℕ × ℕ)
  | selectAll
  | pressDelete
  | pressKey (k : String)
  | pasteText (s : String)
  | pressEnter
  | typeText (s : String)
  | waitExec
  | acceptHotkey
  deriving DecidableEq

/-- Outcome of one inner check_element_exist call inside a retry loop: the
call may raise, report the element absent, or report it found at a
position. -/
inductive AttemptOutcome where
  | raises
  | notFound
  | found (pos : ℕ × ℕ)
  deriving DecidableEq

/-- Whether an attempt outcome reports the element as found. -/
def isFound : AttemptOutcome → Bool
  | .found _ => true
  | _ => false

/-- Result of safe_click: the returned boolean, the number of times the
wrapped check was invoked, and the emitted action trace. -/
structure SCResult where
  ok : Bool
  invocations : ℕ
  trace : List Action
  deriving DecidableEq

/-- Loop of safe_click (src/work.py lines 95-107): on each of the retry
iterations the wrapped check either raises (the exception is caught and
logged), reports the element absent, or reports it found, in which case the
position is clicked and True is returned at once; when the retries are
exhausted False is returned. -/
def safe_click_go (attempts : ℕ → AttemptOutcome) (elem : String) : ℕ → ℕ → SCResult
  | _, 0 => ⟨false, 0, []⟩
  | i, r + 1 =>
    match attempts i with
    | .found pos => ⟨true, 1, [.checkElement elem true, .clickAt pos]⟩
    | .notFound =>
      let rest := safe_click_go attempts elem (i + 1) r
      ⟨rest.ok, rest.invocations + 1, .checkElement elem false :: rest.trace⟩
    | .raises =>
      let rest := safe_click_go attempts elem (i + 1) r
      ⟨rest.ok, rest.invocations + 1, .raiseCaught :: rest.trace⟩

/-- Embeds BaseUIAutomator.safe_click with its retry bound. -/
def safe_click (attempts : ℕ → AttemptOutcome) (elem : String) (retry : ℕ) : SCResult :=
  safe_click_go attempts elem 0 retry

/-- Loop of the method BaseUIAutomator.check_element_exist (src/work.py
lines 109-119): a bounded-count retry around the module-level check that
returns True at the first successful attempt and False once the retries are
exhausted; exceptions are caught and logged.  The second component counts
the invocations of the wrapped check. -/
def BaseUIAutomator.check_element_exist_go (attempts : ℕ → AttemptOutcome) : ℕ → ℕ → Bool × ℕ
  | _, 0 => (false, 0)
  | i, r + 1 =>
    match attempts i with
    | .found _ => (true, 1)
    | _ =>
      let rest := BaseUIAutomator.check_element_exist_go attempts (i + 1) r
      (rest.1, rest.2 + 1)

/-- Embeds the method BaseUIAutomator.check_element_exist. -/
def BaseUIAutomator.check_element_exist (attempts : ℕ → AttemptOutcome) (retry : ℕ) : Bool × ℕ :=
  BaseUIAutomator.check_element_exist_go attempts 0 retry

/-- Outcome of one iteration body of the wait_execution loop: the generating
indicator is still visible, it is gone, or the body raises. -/
inductive PollOutcome where
  | busy
  | idle
  | raises
  deriving DecidableEq

/-- Result of wait_execution: a returned boolean, or a raised TimeoutError. -/
inductive WaitResult where
  | ok (b : Bool)
  | timeoutErr
  deriving DecidableEq

/-- Loop of wait_execution (src/work.py lines 452-467) on a logical clock:
while the elapsed time is below the timeout the body checks the generating
indicator; if it is still visible the loop sleeps 5 seconds and repeats, if
it is gone the function returns True, and if the body raises the exception
is logged and the function returns False; once the elapsed time reaches the
timeout a TimeoutError is raised.  The second component counts the loop
iterations performed.  The fuel argument only forces termination and is
chosen large enough that it never runs out before the deadline check
fails. -/
def wait_execution_go (polls : ℕ → PollOutcome) (timeout : ℕ) : ℕ → ℕ → ℕ → WaitResult × ℕ
  | _, _, 0 => (.timeoutErr, 0)
  | i, e, fuel + 1 =>
    if e < timeout then
      match polls i with
      | .idle => (.ok true, 1)
      | .raises => (.ok false, 1)
      | .busy =>
        let rest := wait_execution_go polls timeout (i + 1) (e + 5) fuel
        (rest.1, rest.2 + 1)
    else (.timeoutErr, 0)

/-- Embeds ComposerAutomator.wait_execution, started at elapsed time 0. -/
def wait_execution (polls : ℕ → PollOutcome) (timeout : ℕ) : WaitResult × ℕ :=
  wait_execution_go polls timeout 0 0 (timeout + 1)

/-- Verification loop of open_composer (src/work.py lines 269-283): up to 3
checks for the agent_mode element; after each failed check the window is
refocused (result ignored) and the hotkey is sent again. -/
def open_composer_go (retryFocus : ℕ → Bool) (checks : ℕ → Bool) : ℕ → ℕ → Bool × List Action
  | _, 0 => (false, [])
  | i, r + 1 =>
    if checks i then (true, [.checkElement "agent_mode" true])
    else
      let rest := open_composer_go retryFocus checks (i + 1) r
      (rest.1, [.checkElement "agent_mode" false, .focus (retryFocus i), .hotkey "open_composer"] ++ rest.2)

/-- Embeds open_composer (src/work.py lines 259-283): focus the window with
the result ignored, send the hotkey, then run the verification loop. -/
def open_composer (focus0 : Bool) (retryFocus : ℕ → Bool) (checks : ℕ → Bool) :
    Bool × List Action :=
  let rest := open_composer_go retryFocus checks 0 3
  (rest.1, [.focus focus0, .hotkey "open_composer"] ++ rest.2)

/-- Embeds new_session (src/work.py lines 285-310): focus (result ignored),
hotkey, focus again (result ignored), select-all and two deletes; always
returns True. -/
def new_session (f1 f2 : Bool) : Bool × List Action :=
  (true, [.focus f1, .hotkey "new_session", .focus f2, .selectAll, .pressDelete, .pressDelete])

/-- Per-file gestures of link_files: a space, an at-sign, a clipboard paste
of the path and an enter, for each path in order. -/
def link_files_go : List String → List Action
  | [] => []
  | p :: ps =>
    [Action.pressKey " ", Action.pressKey "@", Action.pasteText p, Action.pressEnter] ++
      link_files_go ps

/-- Embeds link_files (src/work.py lines 312-364): one focus attempt whose
result is ignored, then the per-file gestures; there is no per-file
verification and no return value. -/
def link_files (f : Bool) (paths : List String) : List Action :=
  .focus f :: link_files_go paths

/-- Embeds send_message (src/work.py lines 377-394): try an image-based
click of the send button via safe_click; if that fails fall back to a
submit hotkey whose effect is never verified; both paths return True. -/
def send_message (attempts : ℕ → AttemptOutcome) : Bool × List Action :=
  let sc := safe_click attempts "send_button" 3
  if sc.ok then (true, sc.trace)
  else (true, sc.trace ++ [.hotkey "submit"])

/-- Embeds input_prompt (src/work.py lines 366-375): type the prompt text
and call send_message, ignoring its result. -/
def input_prompt (task : String) (attempts : ℕ → AttemptOutcome) : List Action :=
  .typeText task :: (send_message attempts).2

/-- Embeds accept_changes (src/work.py lines 469-473): one confirm hotkey,
always returning True. -/
def accept_changes : Bool × List Action :=
  (true, [.acceptHotkey])

/-- Oracle inputs for one run of execute_workflow, one field per call site:
the focus results, the open_composer verification checks, the send-button
click attempts and the generating-indicator polls. -/
structure Env where
  focusMain : Bool
  ocFocus0 : Bool
  ocRetryFocus : ℕ → Bool
  agentChecks : ℕ → Bool
  nsFocus1 : Bool
  nsFocus2 : Bool
  lfFocus : Bool
  promptFocus : Bool
  sendAttempts : ℕ → AttemptOutcome
  polls : ℕ → PollOutcome
  execTimeout : ℕ

/-- Result of a workflow run: the returned boolean and the action trace. -/
structure WFResult where
  ok : Bool
  trace : List Action

/-- Embeds execute_workflow (src/work.py lines 396-450): open the project,
return False when the first focus attempt fails, return False when
open_composer reports failure, run new_session and link_files without
checking their results, and when a task string is given focus once more
(result ignored), send the prompt, call wait_execution without consulting
its returned boolean, and finish with accept_changes; a TimeoutError
escaping wait_execution is caught by the surrounding handler, which makes
the run return False. -/
def execute_workflow (env : Env) (task : String) (files : List String) : WFResult :=
  let t0 : List Action := [.openProject, .focus env.focusMain]
  if env.focusMain then
    let oc := open_composer env.ocFocus0 env.ocRetryFocus env.agentChecks
    if oc.1 then
      let ns := new_session env.nsFocus1 env.nsFocus2
      let lf := link_files env.lfFocus files
      let pre := t0 ++ oc.2 ++ ns.2 ++ lf
      if task.isEmpty then ⟨true, pre⟩
      else
        let ip := input_prompt task env.sendAttempts
        let w := wait_execution env.polls env.execTimeout
        let tr := pre ++ [.focus env.promptFocus] ++ ip ++ [.waitExec]
        match w.1 with
        | .ok _ => ⟨accept_changes.1, tr ++ accept_changes.2⟩
        | .timeoutErr => ⟨false, tr⟩
    else ⟨false, t0 ++ oc.2⟩
  else ⟨false, t0⟩

/-- The trace of everything a workflow run emits before the wait step, when
the run reaches the wait step. -/
def step_body_trace (env : Env) (task : String) (files : List String) : List Action :=
  [Action.openProject, Action.focus env.focusMain] ++
    (open_composer env.ocFocus0 env.ocRetryFocus env.agentChecks).2 ++
    (new_session env.nsFocus1 env.nsFocus2).2 ++
    link_files env.lfFocus files ++
    [Action.focus env.promptFocus] ++
    input_prompt task env.sendAttempts

/-- Required configuration keys of ComposerAutomator.validate_config
(src/work.py lines 176-181). -/
def required_keys : List String := ["hotkeys", "wait_timeouts", "ui_elements"]

/-- Loop of validate_config: walk the required keys and raise ValueError at
the first one missing from the configuration. -/
def validate_config_go (cfgKeys : List String) : List String → Except String Unit
  | [] => .ok ()
  | k :: ks =>
    if k ∈ cfgKeys then validate_config_go cfgKeys ks
    else .error ("Missing required config key: " ++ k)

/-- Embeds ComposerAutomator.validate_config, called from the constructor. -/
def validate_config (cfgKeys : List String) : Except String Unit :=
  validate_config_go cfgKeys required_keys

/-- Constructing a ComposerAutomator validates the configuration before
anything else, and only a successfully constructed automator can run the
workflow, so a validation failure yields an empty action trace: no capture
and no window action has happened. -/
def construct_and_run (cfgKeys : List String) (env : Env) (task : String)
    (files : List String) : Except String Bool × List Action :=
  match validate_config cfgKeys with
  | .error e => (.error e, [])
  | .ok _ =>
    let r := execute_workflow env task files
    (.ok r.ok, r.trace)

/-- Concrete oracle environment in which every step succeeds except that the
wait_execution body raises on its first iteration. -/
def env1 : Env :=
  ⟨true, true, fun _ => true, fun _ => true, true, true, true, true,
    fun _ => AttemptOutcome.found (1, 2), fun _ => PollOutcome.raises, 9⟩

/-- Concrete oracle environment in which every focus attempt succeeds except
the one inside link_files. -/
def env2 : Env :=
  ⟨true, true, fun _ => true, fun _ => true, true, true, false, true,
    fun _ => AttemptOutcome.found (1, 2), fun _ => PollOutcome.idle, 9⟩

/-- Concrete oracle environment in which the generating indicator never
disappears, so wait_execution times out. -/
def env3 : Env :=
  ⟨true, true, fun _ => true, fun _ => true, true, true, true, true,
    fun _ => AttemptOutcome.found (1, 2), fun _ => PollOutcome.busy, 7⟩

/-- Concrete oracle environment in which every operation succeeds. -/
def env0 : Env :=
  ⟨true, true, fun _ => true, fun _ => true, true, true, true, true,
    fun _ => AttemptOutcome.notFound, fun _ => PollOutcome.busy, 5⟩

lemma py_get_not_value_error (l : List Monitor) (i : Int) (msg : String) :
    py_get l i ≠ .error (.valueError msg) := by
  unfold py_get
  split
  · split <;> simp
  · split
    · split <;> simp
    · simp

lemma safe_click_go_invocations_le (attempts : ℕ → AttemptOutcome) (elem : String) :
    ∀ r i, (safe_click_go attempts elem i r).invocations ≤ r := by
  intro r
  induction r with
  | zero => intro i; simp [safe_click_go]
  | succ n ih =>
    intro i
    cases h : attempts i with
    | found pos => simp [safe_click_go, h]
    | notFound =>
      simp only [safe_click_go, h]
      exact Nat.succ_le_succ (ih (i + 1))
    | raises =>
      simp only [safe_click_go, h]
      exact Nat.succ_le_succ (ih (i + 1))

lemma safe_click_go_false (attempts : ℕ → AttemptOutcome) (elem : String) :
    ∀ r i, (safe_click_go attempts elem i r).ok = false →
      (safe_click_go attempts elem i r).invocations = r ∧
      ∀ j, j < r → isFound (attempts (i + j)) = false := by
  intro r
  induction r with
  | zero => intro i _; exact ⟨rfl, fun j hj => absurd hj (Nat.not_lt_zero j)⟩
  | succ n ih =>
    intro i h
    cases ha : attempts i with
    | found pos => simp [safe_click_go, ha] at h
    | notFound =>
      have h2 : (safe_click_go attempts elem (i + 1) n).ok = false := by
        simpa [safe_click_go, ha] using h
      obtain ⟨hinv, hall⟩ := ih (i + 1) h2
      refine ⟨by simp [safe_click_go, ha, hinv], ?_⟩
      intro j hj
      cases j with
      | zero => simp [isFound, ha]
      | succ m =>
        have hm := hall m (by omega)
        have he : i + (m + 1) = i + 1 + m := by omega
        rw [he]
        exact hm
    | raises =>
      have h2 : (safe_click_go attempts elem (i + 1) n).ok = false := by
        simpa [safe_click_go, ha] using h
      obtain ⟨hinv, hall⟩ := ih (i + 1) h2
      refine ⟨by simp [safe_click_go, ha, hinv], ?_⟩
      intro j hj
      cases j with
      | zero => simp [isFound, ha]
      | succ m =>
        have hm := hall m (by omega)
        have he : i + (m + 1) = i + 1 + m := by omega
        rw [he]
        exact hm

lemma safe_click_go_first_found (attempts : ℕ → AttemptOutcome) (elem : String) :
    ∀ k r i p, k < r → (∀ j, j < k → isFound (attempts (i + j)) = false) →
      attempts (i + k) = .found p →
      (safe_click_go attempts elem i r).ok = true ∧
      (safe_click_go attempts elem i r).invocations = k + 1 ∧
      Action.clickAt p ∈ (safe_click_go attempts elem i r).trace := by
  intro k
  induction k with
  | zero =>
    intro r i p hr _ hp
    obtain ⟨r', rfl⟩ : ∃ r', r = r' + 1 := ⟨r - 1, by omega⟩
    rw [Nat.add_zero] at hp
    simp [safe_click_go, hp]
  | succ m ih =>
    intro r i p hr hall hp
    obtain ⟨r', rfl⟩ : ∃ r', r = r' + 1 := ⟨r - 1, by omega⟩
    cases ha : attempts i with
    | found q =>
      have h0 := hall 0 (Nat.succ_pos m)
      rw [Nat.add_zero, ha] at h0
      simp [isFound] at h0
    | notFound =>
      have hall' : ∀ j, j < m → isFound (attempts (i + 1 + j)) = false := by
        intro j hj
        have := hall (j + 1) (by omega)
        have he : i + (j + 1) = i + 1 + j := by omega
        rwa [he] at this
      have hp' : attempts (i + 1 + m) = .found p := by
        have he : i + (m + 1) = i + 1 + m := by omega
        rwa [he] at hp
      obtain ⟨hok, hinv, hmem⟩ := ih r' (i + 1) p (by omega) hall' hp'
      refine ⟨by simp [safe_click_go, ha, hok], by simp [safe_click_go, ha, hinv], ?_⟩
      simp only [safe_click_go, ha]
      exact List.mem_cons_of_mem _ hmem
    | raises =>
      have hall' : ∀ j, j < m → isFound (attempts (i + 1 + j)) = false := by
        intro j hj
        have := hall (j + 1) (by omega)
        have he : i + (j + 1) = i + 1 + j := by omega
        rwa [he] at this
      have hp' : attempts (i + 1 + m) = .found p := by
        have he : i + (m + 1) = i + 1 + m := by omega
        rwa [he] at hp
      obtain ⟨hok, hinv, hmem⟩ := ih r' (i + 1) p (by omega) hall' hp'
      refine ⟨by simp [safe_click_go, ha, hok], by simp [safe_click_go, ha, hinv], ?_⟩
      simp only [safe_click_go, ha]
      exact List.mem_cons_of_mem _ hmem

lemma raiseCaught_mem_safe_click_go (attempts : ℕ → AttemptOutcome) (elem : String)
    (i r : ℕ) (h : attempts i = .raises) :
    Action.raiseCaught ∈ (safe_click_go attempts elem i (r + 1)).trace := by
  simp [safe_click_go, h]

lemma safe_click_go_trace_mem (attempts : ℕ → AttemptOutcome) (elem : String) :
    ∀ r i a, a ∈ (safe_click_go attempts elem i r).trace →
      (∃ b, a = Action.checkElement elem b) ∨ (∃ p, a = Action.clickAt p) ∨
      a = Action.raiseCaught := by
  intro r
  induction r with
  | zero => intro i a ha; simp [safe_click_go] at ha
  | succ n ih =>
    intro i a ha
    cases hA : attempts i with
    | found pos =>
      simp [safe_click_go, hA] at ha
      rcases ha with rfl | rfl
      · exact Or.inl ⟨true, rfl⟩
      · exact Or.inr (Or.inl ⟨pos, rfl⟩)
    | notFound =>
      simp only [safe_click_go, hA, List.mem_cons] at ha
      rcases ha with rfl | h
      · exact Or.inl ⟨false, rfl⟩
      · exact ih (i + 1) a h
    | raises =>
      simp only [safe_click_go, hA, List.mem_cons] at ha
      rcases ha with rfl | h
      · exact Or.inr (Or.inr rfl)
      · exact ih (i + 1) a h

lemma bua_check_go_invocations_le (attempts : ℕ → AttemptOutcome) :
    ∀ r i, (BaseUIAutomator.check_element_exist_go attempts i r).2 ≤ r := by
  intro r
  induction r with
  | zero => intro i; simp [BaseUIAutomator.check_element_exist_go]
  | succ n ih =>
    intro i
    cases h : attempts i with
    | found pos => simp [BaseUIAutomator.check_element_exist_go, h]
    | notFound =>
      simp only [BaseUIAutomator.check_element_exist_go, h]
      exact Nat.succ_le_succ (ih (i + 1))
    | raises =>
      simp only [BaseUIAutomator.check_element_exist_go, h]
      exact Nat.succ_le_succ (ih (i + 1))

lemma bua_check_go_false (attempts : ℕ → AttemptOutcome) :
    ∀ r i, (BaseUIAutomator.check_element_exist_go attempts i r).1 = false →
      (BaseUIAutomator.check_element_exist_go attempts i r).2 = r := by
  intro r
  induction r with
  | zero => intro i _; rfl
  | succ n ih =>
    intro i h
    cases ha : attempts i with
    | found pos => simp [BaseUIAutomator.check_element_exist_go, ha] at h
    | notFound =>
      have h2 := ih (i + 1) (by simpa [BaseUIAutomator.check_element_exist_go, ha] using h)
      simp [BaseUIAutomator.check_element_exist_go, ha, h2]
    | raises =>
      have h2 := ih (i + 1) (by simpa [BaseUIAutomator.check_element_exist_go, ha] using h)
      simp [BaseUIAutomator.check_element_exist_go, ha, h2]

lemma wait_execution_go_all_busy (polls : ℕ → PollOutcome) (timeout : ℕ)
    (hb : ∀ j, polls j = .busy) :
    ∀ fuel i e, (wait_execution_go polls timeout i e fuel).1 = .timeoutErr := by
  intro fuel
  induction fuel with
  | zero => intro i e; rfl
  | succ n ih =>
    intro i e
    by_cases he : e < timeout
    · simp only [wait_execution_go, he, if_true, hb i]
      exact ih (i + 1) (e + 5)
    · simp [wait_execution_go, he]

lemma wait_execution_go_first_exit (polls : ℕ → PollOutcome) (timeout : ℕ) :
    ∀ k i e fuel, (∀ j, j < k → polls (i + j) = .busy) →
      (polls (i + k) = .idle ∨ polls (i + k) = .raises) →
      e + 5 * k < timeout → k < fuel →
      wait_execution_go polls timeout i e fuel =
        (if polls (i + k) = .idle then (.ok true, k + 1) else (.ok false, k + 1)) := by
  intro k
  induction k with
  | zero =>
    intro i e fuel _ hexit he hf
    obtain ⟨f, rfl⟩ : ∃ f, fuel = f + 1 := ⟨fuel - 1, by omega⟩
    have he' : e < timeout := by omega
    rw [Nat.add_zero] at hexit ⊢
    rcases hexit with hi | hr
    · simp [wait_execution_go, he', hi]
    · simp [wait_execution_go, he', hr]
  | succ m ih =>
    intro i e fuel hb hexit he hf
    obtain ⟨f, rfl⟩ : ∃ f, fuel = f + 1 := ⟨fuel - 1, by omega⟩
    have hb0 : polls i = .busy := by
      have := hb 0 (Nat.succ_pos m)
      rwa [Nat.add_zero] at this
    have he' : e < timeout := by omega
    have hshift : i + (m + 1) = i + 1 + m := by omega
    have hrec := ih (i + 1) (e + 5) f
      (fun j hj => by
        have := hb (j + 1) (by omega)
        have hj2 : i + (j + 1) = i + 1 + j := by omega
        rwa [hj2] at this)
      (by rwa [hshift] at hexit)
      (by omega) (by omega)
    rw [hshift]
    simp only [wait_execution_go, he', if_true, hb0, hrec]
    by_cases hi : polls (i + 1 + m) = PollOutcome.idle
    · simp [hi]
    · simp [hi]

lemma open_composer_go_trace_mem (rf cs : ℕ → Bool) :
    ∀ r i a, a ∈ (open_composer_go rf cs i r).2 →
      (∃ b, a = Action.checkElement "agent_mode" b) ∨ (∃ b, a = Action.focus b) ∨
      a = Action.hotkey "open_composer" := by
  intro r
  induction r with
  | zero => intro i a ha; simp [open_composer_go] at ha
  | succ n ih =>
    intro i a ha
    by_cases hc : cs i
    · simp [open_composer_go, hc] at ha
      exact Or.inl ⟨true, ha⟩
    · simp only [open_composer_go, hc, if_false, Bool.false_eq_true, List.cons_append,
        List.nil_append, List.mem_cons] at ha
      rcases ha with rfl | rfl | rfl | h
      · exact Or.inl ⟨false, rfl⟩
      · exact Or.inr (Or.inl ⟨rf i, rfl⟩)
      · exact Or.inr (Or.inr rfl)
      · exact ih (i + 1) a h

lemma open_composer_trace_mem (f0 : Bool) (rf cs : ℕ → Bool) (a : Action)
    (ha : a ∈ (open_composer f0 rf cs).2) :
    (∃ b, a = Action.checkElement "agent_mode" b) ∨ (∃ b, a = Action.focus b) ∨
    a = Action.hotkey "open_composer" := by
  simp only [open_composer, List.cons_append, List.nil_append, List.mem_cons] at ha
  rcases ha with rfl | rfl | h
  · exact Or.inr (Or.inl ⟨f0, rfl⟩)
  · exact Or.inr (Or.inr rfl)
  · exact open_composer_go_trace_mem rf cs 3 0 a h

lemma link_files_go_trace_mem :
    ∀ paths a, a ∈ link_files_go paths →
      a = Action.pressKey " " ∨ a = Action.pressKey "@" ∨
      (∃ p, p ∈ paths ∧ a = Action.pasteText p) ∨ a = Action.pressEnter := by
  intro paths
  induction paths with
  | nil => intro a ha; simp [link_files_go] at ha
  | cons p ps ih =>
    intro a ha
    simp only [link_files_go, List.cons_append, List.nil_append, List.mem_cons] at ha
    rcases ha with rfl | rfl | rfl | rfl | h
    · exact Or.inl rfl
    · exact Or.inr (Or.inl rfl)
    · exact Or.inr (Or.inr (Or.inl ⟨p, List.mem_cons_self p ps, rfl⟩))
    · exact Or.inr (Or.inr (Or.inr rfl))
    · rcases ih a h with h1 | h2 | ⟨q, hq, rfl⟩ | h4
      · exact Or.inl h1
      · exact Or.inr (Or.inl h2)
      · exact Or.inr (Or.inr (Or.inl ⟨q, List.mem_cons_of_mem p hq, rfl⟩))
      · exact Or.inr (Or.inr (Or.inr h4))

lemma pasteText_mem_link_files_go :
    ∀ paths p, p ∈ paths → Action.pasteText p ∈ link_files_go paths := by
  intro paths
  induction paths with
  | nil => intro p hp; cases hp
  | cons q qs ih =>
    intro p hp
    rcases List.mem_cons.mp hp with rfl | hp'
    · simp [link_files_go]
    · simp only [link_files_go, List.cons_append, List.nil_append, List.mem_cons]
      exact Or.inr (Or.inr (Or.inr (Or.inr (ih p hp'))))

lemma link_files_trace_mem (f : Bool) (paths : List String) (a : Action)
    (ha : a ∈ link_files f paths) :
    a = Action.focus f ∨ a = Action.pressKey " " ∨ a = Action.pressKey "@" ∨
    (∃ p, p ∈ paths ∧ a = Action.pasteText p) ∨ a = Action.pressEnter := by
  rcases List.mem_cons.mp ha with rfl | h
  · exact Or.inl rfl
  · exact Or.inr (link_files_go_trace_mem paths a h)

lemma send_message_trace_mem (attempts : ℕ → AttemptOutcome) (a : Action)
    (ha : a ∈ (send_message attempts).2) :
    (∃ b, a = Action.checkElement "send_button" b) ∨ (∃ p, a = Action.clickAt p) ∨
    a = Action.raiseCaught ∨ a = Action.hotkey "submit" := by
  unfold send_message at ha
  by_cases h : (safe_click attempts "send_button" 3).ok
  · simp only [h, if_true] at ha
    rcases safe_click_go_trace_mem attempts "send_button" 3 0 a ha with h1 | h2 | h3
    · exact Or.inl h1
    · exact Or.inr (Or.inl h2)
    · exact Or.inr (Or.inr (Or.inl h3))
  · simp only [h, if_false, Bool.false_eq_true, List.mem_append, List.mem_cons,
      List.not_mem_nil, or_false] at ha
    rcases ha with h' | rfl
    · rcases safe_click_go_trace_mem attempts "send_button" 3 0 a h' with h1 | h2 | h3
      · exact Or.inl h1
      · exact Or.inr (Or.inl h2)
      · exact Or.inr (Or.inr (Or.inl h3))
    · exact Or.inr (Or.inr (Or.inr rfl))

lemma input_prompt_trace_mem (task : String) (attempts : ℕ → AttemptOutcome) (a : Action)
    (ha : a ∈ input_prompt task attempts) :
    a = Action.typeText task ∨ (∃ b, a = Action.checkElement "send_button" b) ∨
    (∃ p, a = Action.clickAt p) ∨ a = Action.raiseCaught ∨ a = Action.hotkey "submit" := by
  rcases List.mem_cons.mp ha with rfl | h
  · exact Or.inl rfl
  · exact Or.inr (send_message_trace_mem attempts a h)

lemma step_body_trace_mem (env : Env) (task : String) (files : List String) (a : Action)
    (ha : a ∈ step_body_trace env task files) :
    a ≠ Action.acceptHotkey ∧ a ≠ Action.waitExec := by
  unfold step_body_trace at ha
  simp only [List.append_assoc, List.mem_append, List.cons_append, List.nil_append,
    List.mem_cons, List.not_mem_nil, or_false] at ha
  rcases ha with rfl | rfl | h | h | h | rfl | h
  · exact ⟨by simp, by simp⟩
  · exact ⟨by simp, by simp⟩
  · rcases open_composer_trace_mem _ _ _ a h with ⟨b, rfl⟩ | ⟨b, rfl⟩ | rfl <;>
      exact ⟨by simp, by simp⟩
  · simp only [new_session, List.mem_cons, List.not_mem_nil, or_false] at h
    rcases h with rfl | rfl | rfl | rfl | rfl | rfl <;> exact ⟨by simp, by simp⟩
  · rcases link_files_trace_mem _ _ a h with rfl | rfl | rfl | ⟨p, _, rfl⟩ | rfl <;>
      exact ⟨by simp, by simp⟩
  · exact ⟨by simp, by simp⟩
  · rcases input_prompt_trace_mem _ _ a h with rfl | ⟨b, rfl⟩ | ⟨p, rfl⟩ | rfl | rfl <;>
      exact ⟨by simp, by simp⟩

lemma execute_workflow_wait_eq (env : Env) (task : String) (files : List String)
    (h1 : env.focusMain = true)
    (h2 : (open_composer env.ocFocus0 env.ocRetryFocus env.agentChecks).1 = true)
    (h3 : task.isEmpty = false) :
    execute_workflow env task files =
      (match (wait_execution env.polls env.execTimeout).1 with
        | .ok _ => ⟨true, step_body_trace env task files ++ [Action.waitExec] ++ [Action.acceptHotkey]⟩
        | .timeoutErr => ⟨false, step_body_trace env task files ++ [Action.waitExec]⟩) := by
  unfold execute_workflow step_body_trace accept_changes
  simp only [h1, h2, h3, if_true, Bool.false_eq_true, if_false]

lemma execute_workflow_focus_false (env : Env) (task : String) (files : List String)
    (h1 : env.focusMain = false) :
    execute_workflow env task files = ⟨false, [Action.openProject, Action.focus false]⟩ := by
  unfold execute_workflow
  simp [h1]

lemma execute_workflow_composer_false (env : Env) (task : String) (files : List String)
    (h1 : env.focusMain = true)
    (h2 : (open_composer env.ocFocus0 env.ocRetryFocus env.agentChecks).1 = false) :
    execute_workflow env task files =
      ⟨false, [Action.openProject, Action.focus true] ++
        (open_composer env.ocFocus0 env.ocRetryFocus env.agentChecks).2⟩ := by
  unfold execute_workflow
  simp [h1, h2]

lemma execute_workflow_no_task (env : Env) (task : String) (files : List String)
    (h1 : env.focusMain = true)
    (h2 : (open_composer env.ocFocus0 env.ocRetryFocus env.agentChecks).1 = true)
    (h3 : task.isEmpty = true) :
    execute_workflow env task files =
      ⟨true, [Action.openProject, Action.focus true] ++
        (open_composer env.ocFocus0 env.ocRetryFocus env.agentChecks).2 ++
        (new_session env.nsFocus1 env.nsFocus2).2 ++
        link_files env.lfFocus files⟩ := by
  unfold execute_workflow
  simp only [h1, h2, h3, if_true]

lemma validate_config_go_ok (cfgKeys : List String) :
    ∀ ks, (∀ k, k ∈ ks → k ∈ cfgKeys) → validate_config_go cfgKeys ks = .ok () := by
  intro ks
  induction ks with
  | nil => intro _; rfl
  | cons k ks ih =>
    intro h
    have hk : k ∈ cfgKeys := h k (List.mem_cons_self k ks)
    simp only [validate_config_go, hk, if_true]
    exact ih (fun x hx => h x (List.mem_cons_of_mem k hx))

lemma validate_config_go_missing (cfgKeys : List String) :
    ∀ ks, (∃ k, k ∈ ks ∧ k ∉ cfgKeys) →
      ∃ msg, validate_config_go cfgKeys ks = .error msg := by
  intro ks
  induction ks with
  | nil => rintro ⟨k, hk, _⟩; cases hk
  | cons k ks ih =>
    rintro ⟨x, hx, hnx⟩
    by_cases hk : k ∈ cfgKeys
    · have hx' : x ∈ ks := by
        rcases List.mem_cons.mp hx with rfl | h
        · exact absurd hk hnx
        · exact h
      obtain ⟨m, hm⟩ := ih ⟨x, hx', hnx⟩
      exact ⟨m, by simp only [validate_config_go, hk, if_true]; exact hm⟩
    · exact ⟨"Missing required config key: " ++ k, by simp [validate_config_go, hk]⟩

/-- Claim C1: with a successful capture and a loadable template, the
element-location operation returns found together with the best-match
offset plus half the template width and height exactly when the best
normalized cross-correlation score is at least the confidence threshold c,
and returns found = false with no coordinate when the score is below c;
the default confidence value is 0.8. -/
theorem C1_locate_center_threshold (env : LocateEnv) (img : ScreenImage)
    (tpl : TemplateImg) (c : ℚ) (hc : env.capture = Except.ok img)
    (ht : env.template = some tpl) :
    (env.matched.max_val ≥ c →
      check_element_exist env c =
        .ok (true, some (env.matched.max_loc.1 + tpl.w / 2,
          env.matched.max_loc.2 + tpl.h / 2))) ∧
    (env.matched.max_val < c → check_element_exist env c = .ok (false, none)) ∧
    default_confidence = 4 / 5 := by
  have he : check_element_exist env c =
      if env.matched.max_val ≥ c then
        .ok (true, some (env.matched.max_loc.1 + tpl.w / 2,
          env.matched.max_loc.2 + tpl.h / 2))
      else .ok (false, none) := by
    unfold check_element_exist
    rw [hc, ht]
  refine ⟨fun h => ?_, fun h => ?_, rfl⟩
  · rw [he, if_pos h]
  · rw [he, if_neg (not_le.mpr h)]

/-- Witness for C1 at a concrete environment: score 9/10 against confidence
4/5 yields the centered coordinate (3 + 6/2, 4 + 10/2) = (6, 9). -/
theorem C1_locate_center_threshold_witness :
    check_element_exist ⟨Except.ok ⟨⟨1⟩⟩, some ⟨10, 6⟩, ⟨9/10, (3, 4)⟩⟩ (4/5) =
      .ok (true, some (6, 9)) := by
  have h := (C1_locate_center_threshold ⟨Except.ok ⟨⟨1⟩⟩, some ⟨10, 6⟩, ⟨9/10, (3, 4)⟩⟩
    ⟨⟨1⟩⟩ ⟨10, 6⟩ (4/5) rfl rfl).1 (by norm_num)
  simpa using h

/-- Claim C9: thresholding is monotone in the confidence parameter — for a
fixed match outcome, a locate that reports found at threshold c2 also
reports found at any threshold c1 < c2. -/
theorem C9_threshold_monotone (env : LocateEnv) (c1 c2 : ℚ) (hlt : c1 < c2)
    (h : locate_found env c2 = true) : locate_found env c1 = true := by
  unfold locate_found check_element_exist at h ⊢
  revert h
  rcases env.capture with e | img
  · intro h
    simp at h
  · rcases env.template with _ | tpl
    · intro h
      simp at h
    · intro h
      by_cases hc2 : env.matched.max_val ≥ c2
      · have hc1 : env.matched.max_val ≥ c1 := le_trans hlt.le hc2
        simp [hc1]
      · simp [hc2] at h

/-- Witness for C9 at a concrete environment: found at threshold 1 implies
found at threshold 0. -/
theorem C9_threshold_monotone_witness :
    locate_found ⟨Except.ok ⟨⟨1⟩⟩, some ⟨2, 2⟩, ⟨1, (0, 0)⟩⟩ 0 = true :=
  C9_threshold_monotone ⟨Except.ok ⟨⟨1⟩⟩, some ⟨2, 2⟩, ⟨1, (0, 0)⟩⟩ 0 1
    (by norm_num) (by decide)

/-- Claim C8 counterexample: with two enumerated displays, monitor index -3
is out of range under any reading, yet capture_screen raises IndexError via
Python list indexing rather than the CaptureError ValueError of the
explicit range check. -/
theorem C8_capture_oob_cex :
    capture_screen [⟨0⟩, ⟨1⟩] (-3) = .error .indexError ∧
    isCaptureError (capture_screen [⟨0⟩, ⟨1⟩] (-3)) = false ∧
    ((-3 : Int) < 0 ∨ (2 : Int) ≤ -3) := by
  refine ⟨rfl, rfl, Or.inl (by norm_num)⟩

/-- Claim C8 (amended): capture fails with the CaptureError ValueError
exactly when the monitor index is at least the number of enumerated
displays; an index in [0, count) returns the ScreenImage of the selected
display; an index below -count fails with IndexError instead of the
CaptureError, negative indices in [-count, 0) selecting from the end by
Python indexing. -/
theorem C8_capture_error_range (monitors : List Monitor) (m : Int) :
    (isCaptureError (capture_screen monitors m) = true ↔ (monitors.length : Int) ≤ m) ∧
    (0 ≤ m → m < (monitors.length : Int) →
      ∃ mon, monitors[m.toNat]? = some mon ∧ capture_screen monitors m = .ok ⟨mon⟩) ∧
    (m < -(monitors.length : Int) → capture_screen monitors m = .error .indexError) := by
  refine ⟨⟨?_, ?_⟩, ?_, ?_⟩
  · intro h
    by_contra hlt
    rw [not_le] at hlt
    unfold capture_screen at h
    rw [if_neg (not_le.mpr hlt)] at h
    rcases hpg : py_get monitors m with e | mon
    · rw [hpg] at h
      cases e with
      | valueError msg => exact py_get_not_value_error monitors m msg hpg
      | indexError => simp [isCaptureError] at h
    · rw [hpg] at h
      simp [isCaptureError] at h
  · intro h
    unfold capture_screen
    rw [if_pos h]
    rfl
  · intro h0 hm
    have hne : ¬ ((monitors.length : Int) ≤ m) := not_le.mpr hm
    have hidx : m.toNat < monitors.length := by omega
    obtain ⟨mon, hmon⟩ : ∃ mon, monitors[m.toNat]? = some mon :=
      ⟨_, List.getElem?_eq_getElem hidx⟩
    refine ⟨mon, hmon, ?_⟩
    unfold capture_screen py_get
    rw [if_neg hne, if_pos h0, hmon]
  · intro h
    have h1 : ¬ ((monitors.length : Int) ≤ m) := by omega
    have h2 : ¬ (0 ≤ m) := by omega
    have h3 : ¬ (0 ≤ (monitors.length : Int) + m) := by omega
    unfold capture_screen py_get
    rw [if_neg h1, if_neg h2, if_neg h3]

/-- Witness for C8 at concrete inputs: index 1 of two displays is in range
and capture returns that display's image. -/
theorem C8_capture_error_range_witness :
    ∃ mon, ([⟨0⟩, ⟨1⟩] : List Monitor)[(1 : Int).toNat]? = some mon ∧
      capture_screen [⟨0⟩, ⟨1⟩] 1 = .ok ⟨mon⟩ :=
  (C8_capture_error_range [⟨0⟩, ⟨1⟩] 1).2.1 (by decide) (by decide)

/-- Claim C2 counterexample: in the bounded-time poll a raising body ends
the poll at once — with every poll body raising and a timeout of 100, the
poll performs exactly one iteration and returns False, instead of treating
the exception as one failed attempt and continuing until the timeout. -/
theorem C2_poll_exception_cex :
    wait_execution (fun _ => PollOutcome.raises) 100 = (.ok false, 1) := rfl

/-- Claim C2 (amended): the bounded-count retry treats an exception from
the wrapped check as a single failed, logged attempt and keeps retrying,
but the bounded-time poll does not — an exception in the poll body is
logged and makes wait_execution return False at once, neither continuing to
retry nor propagating the exception; only an all-busy run up to the
deadline yields the terminal TimeoutError. -/
theorem C2_retry_exception_policy (attempts : ℕ → AttemptOutcome) (elem : String)
    (polls : ℕ → PollOutcome) (timeout N k m : ℕ) (p : ℕ × ℕ) :
    (k < N → (∀ j, j < k → attempts j = .raises) → attempts k = .found p →
      (safe_click attempts elem N).ok = true ∧
      (safe_click attempts elem N).invocations = k + 1 ∧
      (0 < k → Action.raiseCaught ∈ (safe_click attempts elem N).trace)) ∧
    ((∀ j, j < m → polls j = .busy) → polls m = .raises → 5 * m < timeout →
      wait_execution polls timeout = (.ok false, m + 1)) := by
  constructor
  · intro hk hraises hfound
    have hall0 : ∀ j, j < k → isFound (attempts (0 + j)) = false := by
      intro j hj
      rw [Nat.zero_add, hraises j hj]
      rfl
    have hfound0 : attempts (0 + k) = .found p := by rw [Nat.zero_add]; exact hfound
    obtain ⟨hok, hinv, _⟩ := safe_click_go_first_found attempts elem k N 0 p hk hall0 hfound0
    refine ⟨hok, hinv, ?_⟩
    intro hkpos
    obtain ⟨N', rfl⟩ : ∃ N', N = N' + 1 := ⟨N - 1, by omega⟩
    exact raiseCaught_mem_safe_click_go attempts elem 0 N' (hraises 0 hkpos)
  · intro hb hr hm
    have hb0 : ∀ j, j < m → polls (0 + j) = .busy := by
      intro j hj; rw [Nat.zero_add]; exact hb j hj
    have hexit : polls (0 + m) = .idle ∨ polls (0 + m) = .raises := by
      rw [Nat.zero_add]; exact Or.inr hr
    have h := wait_execution_go_first_exit polls timeout m 0 0 (timeout + 1) hb0 hexit
      (by omega) (by omega)
    unfold wait_execution
    rw [h, Nat.zero_add, hr]
    simp

/-- Witness for C2 at concrete inputs: one raising attempt followed by a
successful one makes safe_click succeed at the second invocation, and a
busy poll followed by a raising one makes wait_execution return False
after two iterations. -/
theorem C2_retry_exception_policy_witness :
    ((safe_click (fun i => if i = 0 then AttemptOutcome.raises else AttemptOutcome.found (1, 2)) "e" 3).ok = true ∧
      (safe_click (fun i => if i = 0 then AttemptOutcome.raises else AttemptOutcome.found (1, 2)) "e" 3).invocations = 2) ∧
    wait_execution (fun i => if i = 0 then PollOutcome.busy else PollOutcome.raises) 100 =
      (.ok false, 2) := by
  have h := C2_retry_exception_policy
    (fun i => if i = 0 then AttemptOutcome.raises else AttemptOutcome.found (1, 2)) "e"
    (fun i => if i = 0 then PollOutcome.busy else PollOutcome.raises) 100 3 1 1 (1, 2)
  have ha := h.1 (by omega)
    (fun j hj => by
      have hj0 : j = 0 := by omega
      subst hj0
      rfl)
    rfl
  refine ⟨⟨ha.1, ha.2.1⟩, h.2 ?_ rfl (by omega)⟩
  intro j hj
  have hj0 : j = 0 := by omega
  subst hj0
  rfl

/-- Claim C6: bounded-count retry with N attempts invokes the wrapped check
at most N times, returns success at the first successful attempt — clicking
its position after exactly that many invocations — and returns failure only
after exactly N failed attempts, never fewer; the retry wrapper method
check_element_exist obeys the same bounds. -/
theorem C6_bounded_count_retry (attempts : ℕ → AttemptOutcome) (elem : String)
    (N : ℕ) (_hN : 1 ≤ N) :
    (safe_click attempts elem N).invocations ≤ N ∧
    ((safe_click attempts elem N).ok = false →
      (safe_click attempts elem N).invocations = N ∧
      ∀ j, j < N → isFound (attempts j) = false) ∧
    (∀ k p, k < N → (∀ j, j < k → isFound (attempts j) = false) →
      attempts k = .found p →
      (safe_click attempts elem N).ok = true ∧
      (safe_click attempts elem N).invocations = k + 1 ∧
      Action.clickAt p ∈ (safe_click attempts elem N).trace) ∧
    (BaseUIAutomator.check_element_exist attempts N).2 ≤ N ∧
    ((BaseUIAutomator.check_element_exist attempts N).1 = false →
      (BaseUIAutomator.check_element_exist attempts N).2 = N) := by
  refine ⟨safe_click_go_invocations_le attempts elem N 0, ?_, ?_,
    bua_check_go_invocations_le attempts N 0, fun h => bua_check_go_false attempts N 0 h⟩
  · intro h
    obtain ⟨hinv, hall⟩ := safe_click_go_false attempts elem N 0 h
    refine ⟨hinv, fun j hj => ?_⟩
    have hj' := hall j hj
    rwa [Nat.zero_add] at hj'
  · intro k p hk hall hp
    have hall0 : ∀ j, j < k → isFound (attempts (0 + j)) = false := by
      intro j hj; rw [Nat.zero_add]; exact hall j hj
    have hp0 : attempts (0 + k) = .found p := by rw [Nat.zero_add]; exact hp
    exact safe_click_go_first_found attempts elem k N 0 p hk hall0 hp0

/-- Witness for C6: three absent attempts yield failure after exactly
three invocations. -/
theorem C6_bounded_count_retry_witness :
    (safe_click (fun _ => AttemptOutcome.notFound) "x" 3).invocations = 3 ∧
    ∀ j, j < 3 → isFound ((fun _ => AttemptOutcome.notFound) j) = false :=
  (C6_bounded_count_retry (fun _ => AttemptOutcome.notFound) "x" 3 (by omega)).2.1 rfl

/-- Claim C10: send_message always returns True — when the image-based
click succeeds it returns True, and when the click fails the hotkey
fallback is issued with no verification of its effect, so the returned
value is still True and the submission step can never report failure to
the workflow. -/
theorem C10_send_message_always_true (attempts : ℕ → AttemptOutcome) :
    (send_message attempts).1 = true ∧
    ((safe_click attempts "send_button" 3).ok = false →
      (send_message attempts).2 =
        (safe_click attempts "send_button" 3).trace ++ [Action.hotkey "submit"]) := by
  constructor
  · by_cases h : (safe_click attempts "send_button" 3).ok <;> simp [send_message, h]
  · intro h
    simp only [send_message, h, Bool.false_eq_true, if_false]

/-- Witness for C10: with the send button never found, the result is still
True and the trace ends with the fallback hotkey. -/
theorem C10_send_message_always_true_witness :
    (send_message (fun _ => AttemptOutcome.notFound)).1 = true ∧
    (send_message (fun _ => AttemptOutcome.notFound)).2 =
      (safe_click (fun _ => AttemptOutcome.notFound) "send_button" 3).trace ++
        [Action.hotkey "submit"] :=
  ⟨(C10_send_message_always_true (fun _ => AttemptOutcome.notFound)).1,
    (C10_send_message_always_true (fun _ => AttemptOutcome.notFound)).2 rfl⟩

/-- Claim C4: a configuration missing at least one required key makes
construction fail with the ConfigError before any step executes — the run
yields the error with an empty action trace, so no capture and no window
action has occurred — while a configuration containing every required key
passes validation. -/
theorem C4_config_validation (cfgKeys : List String) (env : Env) (task : String)
    (files : List String) :
    ((∃ k, k ∈ required_keys ∧ k ∉ cfgKeys) →
      ∃ msg, construct_and_run cfgKeys env task files = (.error msg, [])) ∧
    ((∀ k, k ∈ required_keys → k ∈ cfgKeys) → validate_config cfgKeys = .ok ()) := by
  constructor
  · intro hmiss
    obtain ⟨msg, hmsg⟩ := validate_config_go_missing cfgKeys required_keys hmiss
    refine ⟨msg, ?_⟩
    unfold construct_and_run validate_config
    rw [hmsg]
  · intro hall
    exact validate_config_go_ok cfgKeys required_keys hall

/-- Witness for C4: dropping wait_timeouts makes construction fail with an
empty trace, and the full key set passes validation. -/
theorem C4_config_validation_witness :
    (∃ msg, construct_and_run ["hotkeys", "ui_elements"] env0 "" [] = (.error msg, [])) ∧
    validate_config ["hotkeys", "wait_timeouts", "ui_elements"] = .ok () :=
  ⟨(C4_config_validation ["hotkeys", "ui_elements"] env0 "" []).1
      ⟨"wait_timeouts", by decide, by decide⟩,
    (C4_config_validation ["hotkeys", "wait_timeouts", "ui_elements"] env0 "" []).2
      (by
        intro k hk
        simp only [required_keys, List.mem_cons, List.not_mem_nil, or_false] at hk
        rcases hk with rfl | rfl | rfl <;> decide)⟩

/-- Claim C3 counterexample: in env1 the wait step reports failure (it
returns False after its body raised), yet accept_changes still executes
and the whole run reports success — a failed step does not terminate the
run. -/
theorem C3_failed_step_continues_cex :
    (wait_execution env1.polls env1.execTimeout).1 = .ok false ∧
    (execute_workflow env1 "t" []).ok = true ∧
    Action.acceptHotkey ∈ (execute_workflow env1 "t" []).trace := by
  refine ⟨rfl, rfl, ?_⟩
  decide

/-- Claim C3 (amended): steps run strictly in order, and the checked
failures do halt the run — a failed initial focus or a failed
open_composer yields False without executing later steps, and a
TimeoutError raised by wait_execution yields False without running
accept_changes — but the returned booleans of the later steps are not
consulted: when wait_execution reports failure by returning False,
accept_changes still executes and the run reports success. -/
theorem C3_first_failure_halts (env : Env) (task : String) (files : List String)
    (ht : task.isEmpty = false) :
    (env.focusMain = false →
      (execute_workflow env task files).ok = false ∧
      (execute_workflow env task files).trace = [Action.openProject, Action.focus false]) ∧
    (env.focusMain = true →
      (open_composer env.ocFocus0 env.ocRetryFocus env.agentChecks).1 = false →
      (execute_workflow env task files).ok = false ∧
      Action.selectAll ∉ (execute_workflow env task files).trace) ∧
    (env.focusMain = true →
      (open_composer env.ocFocus0 env.ocRetryFocus env.agentChecks).1 = true →
      (wait_execution env.polls env.execTimeout).1 = .ok false →
      (execute_workflow env task files).ok = true ∧
      Action.acceptHotkey ∈ (execute_workflow env task files).trace) ∧
    (env.focusMain = true →
      (open_composer env.ocFocus0 env.ocRetryFocus env.agentChecks).1 = true →
      (wait_execution env.polls env.execTimeout).1 = .timeoutErr →
      (execute_workflow env task files).ok = false ∧
      Action.acceptHotkey ∉ (execute_workflow env task files).trace) := by
  refine ⟨?_, ?_, ?_, ?_⟩
  · intro h1
    rw [execute_workflow_focus_false env task files h1]
    exact ⟨rfl, rfl⟩
  · intro h1 h2
    rw [execute_workflow_composer_false env task files h1 h2]
    refine ⟨rfl, ?_⟩
    intro hmem
    rcases List.mem_append.mp hmem with h | h
    · simp at h
    · rcases open_composer_trace_mem _ _ _ _ h with ⟨b, hb⟩ | ⟨b, hb⟩ | hb <;>
        exact Action.noConfusion hb
  · intro h1 h2 hw
    rw [execute_workflow_wait_eq env task files h1 h2 ht, hw]
    refine ⟨rfl, ?_⟩
    simp
  · intro h1 h2 hw
    rw [execute_workflow_wait_eq env task files h1 h2 ht, hw]
    refine ⟨rfl, ?_⟩
    intro hmem
    rcases List.mem_append.mp hmem with h | h
    · exact (step_body_trace_mem env task files _ h).1 rfl
    · simp at h

/-- Witness for C3 amended claim at env1: the wait step reports failure
and accept_changes still runs with overall success. -/
theorem C3_first_failure_halts_witness :
    (execute_workflow env1 "t" []).ok = true ∧
    Action.acceptHotkey ∈ (execute_workflow env1 "t" []).trace :=
  (C3_first_failure_halts env1 "t" [] rfl).2.2.1 rfl (by decide) rfl

/-- Claim C5 counterexample: in env2 the focus attempt inside link_files
fails, yet the file-attach input actions are still injected and the run
reports success rather than entering a failed state. -/
theorem C5_focus_ignored_cex :
    (execute_workflow env2 "" ["a.py"]).ok = true ∧
    Action.focus false ∈ (execute_workflow env2 "" ["a.py"]).trace ∧
    Action.pasteText "a.py" ∈ (execute_workflow env2 "" ["a.py"]).trace := by
  refine ⟨rfl, ?_, ?_⟩ <;> decide

/-- Claim C5 (amended): only the workflow-level initial focus attempt gates
execution — when it fails the run stops at once with False — while the
focus attempts inside the step bodies are made first but their results are
ignored: in particular link_files injects its per-file input actions even
when its own focus attempt failed, and the run still completes with
success. -/
theorem C5_focus_not_gating (env : Env) (task : String) (files : List String)
    (p : String) :
    (env.focusMain = false →
      (execute_workflow env task files).ok = false ∧
      (execute_workflow env task files).trace = [Action.openProject, Action.focus false]) ∧
    (env.focusMain = true →
      (open_composer env.ocFocus0 env.ocRetryFocus env.agentChecks).1 = true →
      task.isEmpty = true → p ∈ files → env.lfFocus = false →
      (execute_workflow env task files).ok = true ∧
      Action.focus false ∈ (execute_workflow env task files).trace ∧
      Action.pasteText p ∈ (execute_workflow env task files).trace) := by
  constructor
  · intro h1
    rw [execute_workflow_focus_false env task files h1]
    exact ⟨rfl, rfl⟩
  · intro h1 h2 h3 hp hf
    rw [execute_workflow_no_task env task files h1 h2 h3]
    refine ⟨rfl, ?_, ?_⟩
    · have hmem : Action.focus false ∈ link_files env.lfFocus files := by
        rw [hf]
        exact List.mem_cons_self _ _
      simp only [List.mem_append]
      exact Or.inr hmem
    · have hmem : Action.pasteText p ∈ link_files env.lfFocus files :=
        List.mem_cons_of_mem _ (pasteText_mem_link_files_go files p hp)
      simp only [List.mem_append]
      exact Or.inr hmem

/-- Witness for C5 applied at env2 with one file. -/
theorem C5_focus_not_gating_witness :
    (execute_workflow env2 "" ["b.txt"]).ok = true ∧
    Action.focus false ∈ (execute_workflow env2 "" ["b.txt"]).trace ∧
    Action.pasteText "b.txt" ∈ (execute_workflow env2 "" ["b.txt"]).trace :=
  (C5_focus_not_gating env2 "" ["b.txt"] "b.txt").2 rfl (by decide) rfl
    (by decide) rfl

/-- Claim C7: the wait step polls for the absence of the generating
indicator and returns True at the first poll where it is gone; if every
poll finds it busy, the elapsed time reaches the timeout and a
TimeoutError is raised, which the workflow handler converts into an
overall False without retrying the wait step — the wait step executes
exactly once in the run's trace. -/
theorem C7_await_completion (polls : ℕ → PollOutcome) (timeout k : ℕ)
    (env : Env) (task : String) (files : List String) :
    ((∀ j, j < k → polls j = .busy) → polls k = .idle → 5 * k < timeout →
      wait_execution polls timeout = (.ok true, k + 1)) ∧
    ((∀ j, polls j = .busy) → (wait_execution polls timeout).1 = .timeoutErr) ∧
    (env.focusMain = true →
      (open_composer env.ocFocus0 env.ocRetryFocus env.agentChecks).1 = true →
      task.isEmpty = false →
      (wait_execution env.polls env.execTimeout).1 = .timeoutErr →
      (execute_workflow env task files).ok = false ∧
      (execute_workflow env task files).trace.count Action.waitExec = 1) := by
  refine ⟨?_, ?_, ?_⟩
  · intro hb hidle hk
    have hb0 : ∀ j, j < k → polls (0 + j) = .busy := by
      intro j hj; rw [Nat.zero_add]; exact hb j hj
    have hexit : polls (0 + k) = .idle ∨ polls (0 + k) = .raises := by
      rw [Nat.zero_add]; exact Or.inl hidle
    have h := wait_execution_go_first_exit polls timeout k 0 0 (timeout + 1) hb0 hexit
      (by omega) (by omega)
    unfold wait_execution
    rw [h, Nat.zero_add, hidle]
    simp
  · intro hb
    exact wait_execution_go_all_busy polls timeout hb (timeout + 1) 0 0
  · intro h1 h2 h3 hw
    rw [execute_workflow_wait_eq env task files h1 h2 h3, hw]
    refine ⟨rfl, ?_⟩
    rw [List.count_append]
    have h0 : (step_body_trace env task files).count Action.waitExec = 0 := by
      rw [List.count_eq_zero]
      intro hmem
      exact (step_body_trace_mem env task files _ hmem).2 rfl
    rw [h0]
    rfl

/-- Witness for C7: a concrete poll sequence where the indicator
disappears at the third poll, and env3 in which it never disappears so the
run fails with the wait step executed exactly once. -/
theorem C7_await_completion_witness :
    wait_execution (fun i => if i < 2 then PollOutcome.busy else PollOutcome.idle) 20 =
      (.ok true, 3) ∧
    (execute_workflow env3 "t" []).ok = false ∧
    (execute_workflow env3 "t" []).trace.count Action.waitExec = 1 := by
  have h1 := (C7_await_completion
    (fun i => if i < 2 then PollOutcome.busy else PollOutcome.idle) 20 2 env3 "t" []).1
    (fun j hj => by
      have hj01 : j = 0 ∨ j = 1 := by omega
      rcases hj01 with rfl | rfl <;> rfl)
    rfl (by omega)
  have h2 := (C7_await_completion env3.polls env3.execTimeout 0 env3 "t" []).2.2
    rfl (by decide) rfl rfl
  exact ⟨h1, h2.1, h2.2⟩

end AutoComposer
